import Mathlib

/-!
Verification development for the benchmark executor driver
(`crates/sui-distributed-execution/src/bin/benchmark_executor.rs`).

The driver's own code (shard start, testbed deployment, run-path attribute
injection, benchmark-data generation entry point) is embedded directly from
the Rust source.  Collaborators that live in other crates of the repository
(`GlobalConfig::new_for_benchmark`, `Metrics`, storage import/export, the
single-node-benchmark workload types) are modelled from the specification;
each such definition carries a doc comment starting `Modelled from the
spec:`.
-/

set_option autoImplicit false

namespace BenchmarkExecutor

/-- An IPv4 network address, the only address family the driver uses
(`Ipv4Addr::LOCALHOST` / `Ipv4Addr::UNSPECIFIED`). -/
inductive IpAddr where
  | v4 (a b c d : Nat)
deriving DecidableEq, Repr

/-- The loopback address `127.0.0.1`. -/
def Ipv4Addr.LOCALHOST : IpAddr := .v4 127 0 0 1

/-- The wildcard (unspecified) address `0.0.0.0`. -/
def Ipv4Addr.UNSPECIFIED : IpAddr := .v4 0 0 0 0

/-- A socket address: an IP address together with a port. -/
structure SocketAddr where
  ip : IpAddr
  port : Nat
deriving DecidableEq, Repr

/-- Replace the IP part of a socket address, keeping the port
(`SocketAddr::set_ip`). -/
def SocketAddr.set_ip (a : SocketAddr) (ip : IpAddr) : SocketAddr :=
  { a with ip := ip }

/-- A free-form string-to-string attribute bag (the `attrs` field of a shard
configuration), modelled as an association list with first-match lookup. -/
abbrev AttrBag : Type := List (String × String)

/-- Insert a key-value pair into an attribute bag, replacing the value if the
key is already present (the semantics of `HashMap::insert`). -/
def insertAttr : AttrBag → String → String → AttrBag
  | [], k, v => [(k, v)]
  | (k', v') :: rest, k, v =>
    if k' = k then (k, v) :: rest else (k', v') :: insertAttr rest k v

/-- Look up a key in an attribute bag (first match). -/
def lookupAttr : AttrBag → String → Option String
  | [], _ => none
  | (k', v') :: rest, k => if k' = k then some v' else lookupAttr rest k

/-- Per-shard configuration: role tag (`kind`), metrics-endpoint address, and
the late-bound attribute bag. -/
structure ShardConfig where
  kind : String
  metrics_address : SocketAddr
  attrs : AttrBag
deriving DecidableEq, Repr

/-- The configuration registry (`GlobalConfig`): a map from shard id to
per-shard configuration, modelled as an association list with first-match
lookup.  Keys are unique by construction. -/
structure GlobalConfig where
  entries : List (Nat × ShardConfig)
deriving DecidableEq, Repr

/-- First-match lookup in an entry list. -/
def lookupEntry : List (Nat × ShardConfig) → Nat → Option ShardConfig
  | [], _ => none
  | (k, c) :: rest, id => if k = id then some c else lookupEntry rest id

/-- Look up a shard id in the registry (`global_configs.get(&id)`). -/
def GlobalConfig.get (g : GlobalConfig) (id : Nat) : Option ShardConfig :=
  lookupEntry g.entries id

/-- Apply `f` to the value stored under key `k`, leaving every other pair
untouched. -/
def modifyEntry : List (Nat × ShardConfig) → Nat →
    (ShardConfig → ShardConfig) → List (Nat × ShardConfig)
  | [], _, _ => []
  | (a, c) :: rest, k, f =>
    if a = k then (a, f c) :: modifyEntry rest k f
    else (a, c) :: modifyEntry rest k f

/-- Modify the entry for `id` in place when it is present; do nothing when it
is absent (`map.entry(id).and_modify(f)` without an `or_insert`). -/
def GlobalConfig.and_modify (g : GlobalConfig) (id : Nat)
    (f : ShardConfig → ShardConfig) : GlobalConfig :=
  ⟨modifyEntry g.entries id f⟩

/-- Modelled from the spec: the `Metrics` struct of
`sui_distributed_execution::metrics` is not under `src/`; the spec only uses
its "up" counter, which starts at zero in a fresh registry. -/
structure Metrics where
  up : Nat
deriving DecidableEq, Repr

/-- A fresh metrics value registered against a fresh Prometheus registry. -/
def Metrics.new : Metrics := ⟨0⟩

/-- Increment the "up" counter (`metrics.up.inc()`). -/
def Metrics.inc_up (m : Metrics) : Metrics := { m with up := m.up + 1 }

/-- The role of a spawned agent server: sequencing (`SWAgent`) or execution
(`EWAgent`). -/
inductive AgentKind where
  | sw
  | ew
deriving DecidableEq, Repr

/-- A concurrent task spawned by `ExecutorShard::start`: either the
Prometheus metrics endpoint bound at a socket address, or an agent server
holding the by-value configuration snapshot it was constructed from. -/
inductive Task where
  | metricsServer (addr : SocketAddr)
  | agent (kind : AgentKind) (configSnapshot : GlobalConfig) (id : Nat)
deriving DecidableEq, Repr

/-- Top-level executor shard structure: the metrics handle plus the two task
handles (`main_handle`, `_metrics_handle`). -/
structure ExecutorShard where
  metrics : Metrics
  main_handle : Task
  metrics_handle : Task
deriving DecidableEq, Repr

/-- The outcome of `ExecutorShard::start`: a fatal panic on an unknown shard
id, a fatal panic naming an unexpected role tag, or a started shard. -/
inductive StartOutcome where
  | panicUnknownId
  | panicUnknownKind (kind : String)
  | ok (shard : ExecutorShard)
deriving DecidableEq, Repr

/-- The result of a call to `ExecutorShard::start` together with the ordered
trace of tasks it spawned before returning (or panicking). -/
structure StartResult where
  outcome : StartOutcome
  spawned : List Task
deriving DecidableEq, Repr

/-- Run an executor shard (non blocking): look the id up in the registry
(panicking on absence before anything is spawned), bind the metrics endpoint
on the wildcard address at the configured port, dispatch on the role tag
(`"SW"` / `"EW"`, panicking on any other tag after the metrics task but
before any agent task), and increment the "up" counter before returning. -/
def ExecutorShard.start (global_configs : GlobalConfig) (id : Nat) :
    StartResult :=
  match global_configs.get id with
  | none => ⟨.panicUnknownId, []⟩
  | some configs =>
    let metrics := Metrics.new
    let binding_metrics_address := configs.metrics_address.set_ip Ipv4Addr.UNSPECIFIED
    let metrics_handle := Task.metricsServer binding_metrics_address
    if configs.kind = "SW" then
      let main_handle := Task.agent .sw global_configs id
      ⟨.ok ⟨metrics.inc_up, main_handle, metrics_handle⟩,
        [metrics_handle, main_handle]⟩
    else if configs.kind = "EW" then
      let main_handle := Task.agent .ew global_configs id
      ⟨.ok ⟨metrics.inc_up, main_handle, metrics_handle⟩,
        [metrics_handle, main_handle]⟩
    else
      ⟨.panicUnknownKind configs.kind, [metrics_handle]⟩

/-- Modelled from the spec: the concrete metrics port chosen by the
configuration constructor is an external detail the spec does not fix; the
claims only require that each shard's configured port is preserved by
`start`. -/
def benchmarkBasePort : Nat := 18000

/-- Modelled from the spec: `GlobalConfig::new_for_benchmark` lives in
`sui_distributed_execution::types`, not under `src/`.  Per the spec, the
benchmark constructor builds one registry entry per given IP address, with
ids numbered from 0, the first `sequence_workers` ids carrying the
sequencing role tag `"SW"` and the remaining ids the execution role tag
`"EW"`, and an initially empty attribute bag. -/
def GlobalConfig.new_for_benchmark (ips : List IpAddr)
    (sequence_workers : Nat) : GlobalConfig :=
  ⟨(List.range ips.length).map (fun i =>
      (i, { kind := if i < sequence_workers then "SW" else "EW"
            metrics_address :=
              { ip := ips.getD i Ipv4Addr.LOCALHOST
                port := benchmarkBasePort + i }
            attrs := [] }))⟩

/-- The attribute mutation the testbed applies to every entry: insert the
`tx_count` value (stringified) into the attribute bag. -/
def insertTxCountAttr (tx_count : Nat) (e : ShardConfig) : ShardConfig :=
  { e with attrs := insertAttr e.attrs "tx_count" (toString tx_count) }

/-- One shard spawn performed by the orchestrator: the by-value registry
snapshot passed to `ExecutorShard::start`, the shard id, and the start
result. -/
structure SpawnEvent where
  configSnapshot : GlobalConfig
  id : Nat
  result : StartResult
deriving DecidableEq, Repr

/-- The initial registry the testbed builds: one loopback IP per shard
(`execution_workers + 1` in total) with a single sequence worker. -/
def testbedBaseConfig (execution_workers : Nat) : GlobalConfig :=
  GlobalConfig.new_for_benchmark
    (List.replicate (execution_workers + 1) Ipv4Addr.LOCALHOST) 1

/-- Deploy a local testbed of executor shards: build the benchmark registry,
insert the workload (`tx_count`) into every entry, then spawn the sequence
worker (id 0) followed by the execution workers (ids `1..N`), each from a
clone of the registry.  Returns the registry together with the ordered spawn
trace. -/
def deploy_testbed (tx_count : Nat) (execution_workers : Nat) :
    GlobalConfig × List SpawnEvent :=
  let base := testbedBaseConfig execution_workers
  let global_configs := (List.range (execution_workers + 1)).foldl
      (fun cfg id => cfg.and_modify id (insertTxCountAttr tx_count)) base
  let spawns := (0 :: List.range' 1 execution_workers).map
      (fun id =>
        SpawnEvent.mk global_configs id (ExecutorShard.start global_configs id))
  (global_configs, spawns)

/-- The attribute injection the `Run` operation applies to the named shard's
entry before starting it: insert `tx_count`, `duration` (in whole seconds)
and `working_dir` into the attribute bag, via `entry(id).and_modify` (so
nothing happens when `id` is absent). -/
def injectRunAttrs (cfg : GlobalConfig) (id : Nat) (tx_count : Nat)
    (duration_secs : Nat) (working_dir : String) : GlobalConfig :=
  cfg.and_modify id (fun e =>
    let a1 := insertAttr e.attrs "tx_count" (toString tx_count)
    let a2 := insertAttr a1 "duration" (toString duration_secs)
    let a3 := insertAttr a2 "working_dir" working_dir
    { e with attrs := a3 })

/-- The `Run` operation after config loading: inject the global flags into
the named shard's attribute bag, then start that shard.  Returns the
injected registry and the start result. -/
def runOperation (cfg : GlobalConfig) (id : Nat) (tx_count : Nat)
    (duration_secs : Nat) (working_dir : String) :
    GlobalConfig × StartResult :=
  let injected := injectRunAttrs cfg id tx_count duration_secs working_dir
  (injected, ExecutorShard.start injected id)

/-- Width of the `u64` machine integers the driver computes the workload
volume in. -/
def U64_MOD : Nat := 2 ^ 64

/-- Modelled from the spec: a benchmark account (the account type of
`sui_single_node_benchmark` is not under `src/`); the claims only need a
structurally comparable value. -/
structure Account where
  address : Nat
  balance : Nat
deriving DecidableEq, Repr

/-- Modelled from the spec: a genesis object, with an identifier, a version
and opaque contents. -/
structure GenesisObject where
  object_id : Nat
  version : Nat
  contents : List Nat
deriving DecidableEq, Repr

/-- Modelled from the spec: a benchmark transaction, with a digest and an
opaque payload. -/
structure Transaction where
  digest : Nat
  payload : List Nat
deriving DecidableEq, Repr

/-- Modelled from the spec: `Workload` (from `sui_single_node_benchmark`) is
not under `src/`; the spec says it records the total transaction volume to
generate (`tx_count` is a public field read by the driver's diagnostics). -/
structure Workload where
  tx_count : Nat
deriving DecidableEq, Repr

/-- Construct a workload for a target total transaction volume
(`Workload::new`; the workload-shape tag is irrelevant to the claims). -/
def Workload.new (tx_count : Nat) : Workload := ⟨tx_count⟩

/-- Modelled from the spec: the context is "sized to hold that many
accounts/genesis objects via an external workload-sizing collaborator"; the
exact sizing is external, modelled as one account per unit of volume. -/
def Workload.num_accounts (w : Workload) : Nat := w.tx_count

/-- Modelled from the spec: the benchmark context owns the generated
accounts and genesis objects. -/
structure BenchmarkContext where
  accounts : List Account
  genesis_objects : List GenesisObject
deriving DecidableEq, Repr

/-- Accessor mirroring `BenchmarkContext::get_accounts`. -/
def BenchmarkContext.get_accounts (ctx : BenchmarkContext) : List Account :=
  ctx.accounts

/-- Accessor mirroring `BenchmarkContext::get_genesis_objects`. -/
def BenchmarkContext.get_genesis_objects (ctx : BenchmarkContext) :
    List GenesisObject :=
  ctx.genesis_objects

/-- Modelled from the spec: `BenchmarkContext::new` builds the sized
account/genesis-object sets deterministically. -/
def BenchmarkContext.new (workload : Workload) : BenchmarkContext :=
  { accounts :=
      (List.range workload.num_accounts).map (fun i => ⟨i, 1⟩)
    genesis_objects :=
      (List.range workload.num_accounts).map (fun i => ⟨i, 0, [i]⟩) }

/-- Modelled from the spec: the transaction generator is "specific to that
workload"; the claims only need the volume it is built for. -/
structure TxGenerator where
  count : Nat
deriving DecidableEq, Repr

/-- Build the per-workload transaction generator
(`workload.create_tx_generator`). -/
def Workload.create_tx_generator (w : Workload) (_ctx : BenchmarkContext) :
    TxGenerator :=
  ⟨w.tx_count⟩

/-- Modelled from the spec: `generate_transactions` "eagerly materializes
the full ordered sequence of transactions", one per unit of the target
volume. -/
def BenchmarkContext.generate_transactions (_ctx : BenchmarkContext)
    (gen : TxGenerator) : List Transaction :=
  (List.range gen.count).map (fun i => ⟨i, [i]⟩)

/-- Generate the benchmark data: build a workload for
`tx_count * duration.as_secs()` transactions (a `u64` product, hence taken
modulo `2 ^ 64`), build the context, and materialize the transaction
sequence. -/
def generate_benchmark_data (tx_count : Nat) (duration_secs : Nat) :
    BenchmarkContext × List Transaction :=
  let workload := Workload.new (tx_count * duration_secs % U64_MOD)
  let ctx := BenchmarkContext.new workload
  let tx_generator := workload.create_tx_generator ctx
  let transactions := ctx.generate_transactions tx_generator
  (ctx, transactions)

/-- The three sibling artifacts the persistence bridge writes under the
working directory. -/
inductive ArtifactName where
  | accountsFile
  | objectsFile
  | txsFile
deriving DecidableEq, Repr

/-- Modelled from the spec: a file system restricted to the artifacts the
bridge touches — a map from (directory, artifact name) to serialized
contents, newest write first. -/
structure FileSystem where
  files : List ((String × ArtifactName) × List Nat)
deriving DecidableEq, Repr

/-- Write (or overwrite) one artifact. -/
def FileSystem.write (fs : FileSystem) (dir : String) (name : ArtifactName)
    (data : List Nat) : FileSystem :=
  ⟨((dir, name), data) :: fs.files⟩

/-- First-match lookup in a file list. -/
def lookupFile : List ((String × ArtifactName) × List Nat) →
    String × ArtifactName → Option (List Nat)
  | [], _ => none
  | (k', d) :: rest, k => if k' = k then some d else lookupFile rest k

/-- Read one artifact back, if present. -/
def FileSystem.read (fs : FileSystem) (dir : String) (name : ArtifactName) :
    Option (List Nat) :=
  lookupFile fs.files (dir, name)

/-- Serialize one account. -/
def encAccount (a : Account) : List Nat := [a.address, a.balance]

/-- Deserialize one account from a prefix of the data, returning the rest. -/
def decAccount : List Nat → Option (Account × List Nat)
  | x :: y :: rest => some (⟨x, y⟩, rest)
  | _ => none

/-- Serialize one genesis object (length-prefixed contents). -/
def encObject (o : GenesisObject) : List Nat :=
  o.object_id :: o.version :: o.contents.length :: o.contents

/-- Deserialize one genesis object from a prefix of the data. -/
def decObject : List Nat → Option (GenesisObject × List Nat)
  | i :: v :: n :: rest =>
    if n ≤ rest.length then some (⟨i, v, rest.take n⟩, rest.drop n) else none
  | _ => none

/-- Serialize one transaction (length-prefixed payload). -/
def encTransaction (t : Transaction) : List Nat :=
  t.digest :: t.payload.length :: t.payload

/-- Deserialize one transaction from a prefix of the data. -/
def decTransaction : List Nat → Option (Transaction × List Nat)
  | d :: n :: rest =>
    if n ≤ rest.length then some (⟨d, rest.take n⟩, rest.drop n) else none
  | _ => none

/-- Concatenation of the encodings of a list of records. -/
def encBody {α : Type} (enc : α → List Nat) : List α → List Nat
  | [] => []
  | x :: xs => enc x ++ encBody enc xs

/-- Decode exactly `n` records off the front of the data. -/
def decMany {α : Type} (dec : List Nat → Option (α × List Nat)) :
    Nat → List Nat → Option (List α × List Nat)
  | 0, rest => some ([], rest)
  | n + 1, rest =>
    match dec rest with
    | none => none
    | some (x, rest1) =>
      match decMany dec n rest1 with
      | none => none
      | some (xs, rest2) => some (x :: xs, rest2)

/-- Serialize a whole collection as one artifact: a count followed by the
concatenated record encodings. -/
def encodeFile {α : Type} (enc : α → List Nat) (xs : List α) : List Nat :=
  xs.length :: encBody enc xs

/-- Deserialize a whole artifact, requiring that it is consumed exactly. -/
def decodeFile {α : Type} (dec : List Nat → Option (α × List Nat))
    (data : List Nat) : Option (List α) :=
  match data with
  | [] => none
  | n :: rest =>
    match decMany dec n rest with
    | some (xs, []) => some xs
    | _ => none

/-- Modelled from the spec: `export_to_files` lives in
`sui_distributed_execution::storage`, not under `src/`; per the spec it
"serializes the three collections as sibling artifacts under `directory`"
(directory creation is performed by the caller in the embedded paths). -/
def export_to_files (accounts : List Account)
    (genesis_objects : List GenesisObject) (txs : List Transaction)
    (dir : String) (fs : FileSystem) : FileSystem :=
  ((fs.write dir .accountsFile (encodeFile encAccount accounts)).write
      dir .objectsFile (encodeFile encObject genesis_objects)).write
    dir .txsFile (encodeFile encTransaction txs)

/-- Modelled from the spec: `import_from_files` is "the exact structural
inverse of export" — read the three sibling artifacts back and deserialize
them. -/
def import_from_files (dir : String) (fs : FileSystem) :
    Option (List Account × List GenesisObject × List Transaction) :=
  match fs.read dir .accountsFile with
  | none => none
  | some adata =>
    match fs.read dir .objectsFile with
    | none => none
    | some odata =>
      match fs.read dir .txsFile with
      | none => none
      | some tdata =>
        match decodeFile decAccount adata with
        | none => none
        | some accounts =>
          match decodeFile decObject odata with
          | none => none
          | some objects =>
            match decodeFile decTransaction tdata with
            | none => none
            | some txs => some (accounts, objects, txs)

/-- Orchestrator state: the shared configuration registry plus the shards
started so far, each holding the registry snapshot captured at its own spawn
call. -/
structure OrchestratorState where
  registry : GlobalConfig
  shards : List SpawnEvent
deriving DecidableEq, Repr

/-- Mutate the shared registry (what the orchestrator does between spawns);
already-started shards are untouched. -/
def mutateRegistry (f : GlobalConfig → GlobalConfig)
    (s : OrchestratorState) : OrchestratorState :=
  { s with registry := f s.registry }

/-- Spawn one shard: `ExecutorShard::start` receives a by-value clone of the
current registry, recorded as the shard's snapshot. -/
def spawnShard (id : Nat) (s : OrchestratorState) : OrchestratorState :=
  { s with shards :=
      s.shards ++ [⟨s.registry, id, ExecutorShard.start s.registry id⟩] }

/-- Apply a sequence of registry mutations in order. -/
def applyMutations (fs : List (GlobalConfig → GlobalConfig))
    (s : OrchestratorState) : OrchestratorState :=
  fs.foldl (fun st f => mutateRegistry f st) s

theorem lookupAttr_insertAttr_self (b : AttrBag) (k v : String) :
    lookupAttr (insertAttr b k v) k = some v := by
  induction b with
  | nil => simp [insertAttr, lookupAttr]
  | cons p rest ih =>
    obtain ⟨k', v'⟩ := p
    by_cases h : k' = k
    · simp [insertAttr, h, lookupAttr]
    · simp [insertAttr, h, lookupAttr, ih]

theorem lookupAttr_insertAttr_ne (b : AttrBag) (k v k0 : String)
    (h : k0 ≠ k) : lookupAttr (insertAttr b k v) k0 = lookupAttr b k0 := by
  induction b with
  | nil =>
    simp only [insertAttr, lookupAttr]
    rw [if_neg (Ne.symm h)]
  | cons p rest ih =>
    obtain ⟨k', v'⟩ := p
    by_cases hk : k' = k
    · subst hk
      simp only [insertAttr, if_pos rfl, lookupAttr]
      rw [if_neg (Ne.symm h)]
      rw [if_neg (Ne.symm h)]
    · simp only [insertAttr, if_neg hk, lookupAttr]
      by_cases hk0 : k' = k0
      · rw [if_pos hk0, if_pos hk0]
      · rw [if_neg hk0, if_neg hk0, ih]

theorem lookupEntry_modifyEntry (entries : List (Nat × ShardConfig))
    (k : Nat) (f : ShardConfig → ShardConfig) (id : Nat) :
    lookupEntry (modifyEntry entries k f) id =
      if id = k then (lookupEntry entries id).map f
      else lookupEntry entries id := by
  induction entries with
  | nil => simp [lookupEntry, modifyEntry]
  | cons p rest ih =>
    obtain ⟨a, c⟩ := p
    by_cases hak : a = k
    · subst hak
      by_cases haid : a = id
      · subst haid
        simp [modifyEntry, lookupEntry]
      · simp only [modifyEntry, if_pos rfl, lookupEntry, if_neg haid, ih]
    · by_cases haid : a = id
      · subst haid
        simp only [modifyEntry, if_neg hak, lookupEntry, if_pos rfl]
        simp
      · simp only [modifyEntry, if_neg hak, lookupEntry, if_neg haid, ih]

theorem get_and_modify (g : GlobalConfig) (k : Nat)
    (f : ShardConfig → ShardConfig) (id : Nat) :
    (g.and_modify k f).get id =
      if id = k then (g.get id).map f else g.get id :=
  lookupEntry_modifyEntry g.entries k f id

theorem modifyEntry_of_lookup_none (entries : List (Nat × ShardConfig))
    (k : Nat) (f : ShardConfig → ShardConfig)
    (h : lookupEntry entries k = none) :
    modifyEntry entries k f = entries := by
  induction entries with
  | nil => rfl
  | cons p rest ih =>
    obtain ⟨a, c⟩ := p
    by_cases hak : a = k
    · simp [lookupEntry, hak] at h
    · simp only [lookupEntry, if_neg hak] at h
      simp [modifyEntry, hak, ih h]

theorem and_modify_of_get_none (g : GlobalConfig) (k : Nat)
    (f : ShardConfig → ShardConfig) (h : g.get k = none) :
    g.and_modify k f = g := by
  unfold GlobalConfig.and_modify
  rw [modifyEntry_of_lookup_none g.entries k f h]

theorem get_foldl_and_modify (L : List Nat) (hnd : L.Nodup)
    (f : ShardConfig → ShardConfig) (g : GlobalConfig) (id : Nat) :
    ((L.foldl (fun cfg k => cfg.and_modify k f) g)).get id =
      if id ∈ L then (g.get id).map f else g.get id := by
  induction L generalizing g with
  | nil => simp
  | cons a L ih =>
    have hndL : L.Nodup := (List.nodup_cons.mp hnd).2
    have haL : a ∉ L := (List.nodup_cons.mp hnd).1
    simp only [List.foldl_cons]
    rw [ih hndL]
    by_cases hid : id ∈ L
    · have hia : id ≠ a := fun h => haL (h ▸ hid)
      rw [if_pos hid, get_and_modify, if_neg hia,
        if_pos (List.mem_cons.mpr (Or.inr hid))]
    · rw [if_neg hid, get_and_modify]
      by_cases hia : id = a
      · rw [if_pos hia, if_pos (List.mem_cons.mpr (Or.inl hia))]
      · rw [if_neg hia,
          if_neg (fun h => (List.mem_cons.mp h).elim hia hid)]

theorem keys_modifyEntry (entries : List (Nat × ShardConfig)) (k : Nat)
    (f : ShardConfig → ShardConfig) :
    (modifyEntry entries k f).map Prod.fst = entries.map Prod.fst := by
  induction entries with
  | nil => rfl
  | cons p rest ih =>
    obtain ⟨a, c⟩ := p
    by_cases hak : a = k <;> simp [modifyEntry, hak, ih]

theorem keys_and_modify (g : GlobalConfig) (k : Nat)
    (f : ShardConfig → ShardConfig) :
    (g.and_modify k f).entries.map Prod.fst = g.entries.map Prod.fst :=
  keys_modifyEntry g.entries k f

theorem keys_foldl_and_modify (L : List Nat)
    (f : ShardConfig → ShardConfig) (g : GlobalConfig) :
    ((L.foldl (fun cfg k => cfg.and_modify k f) g)).entries.map Prod.fst =
      g.entries.map Prod.fst := by
  induction L generalizing g with
  | nil => simp
  | cons a L ih =>
    simp only [List.foldl_cons]
    rw [ih, keys_and_modify]

theorem lookupEntry_range'_map (f : Nat → ShardConfig) (n : Nat) :
    ∀ (a id : Nat),
      lookupEntry ((List.range' a n).map (fun i => (i, f i))) id =
        if a ≤ id ∧ id < a + n then some (f id) else none := by
  induction n with
  | zero =>
    intro a id
    rw [if_neg (by omega)]
    simp [lookupEntry]
  | succ n ih =>
    intro a id
    rw [List.range'_succ]
    simp only [List.map_cons, lookupEntry]
    by_cases h : a = id
    · subst h
      rw [if_pos rfl, if_pos (by omega)]
    · rw [if_neg h, ih]
      by_cases h2 : a + 1 ≤ id ∧ id < a + 1 + n
      · rw [if_pos h2, if_pos (by omega)]
      · rw [if_neg h2, if_neg (by omega)]

theorem get_new_for_benchmark (ips : List IpAddr) (s : Nat) (id : Nat) :
    (GlobalConfig.new_for_benchmark ips s).get id =
      if id < ips.length then
        some { kind := if id < s then "SW" else "EW"
               metrics_address :=
                 { ip := ips.getD id Ipv4Addr.LOCALHOST
                   port := benchmarkBasePort + id }
               attrs := [] }
      else none := by
  unfold GlobalConfig.new_for_benchmark GlobalConfig.get
  rw [List.range_eq_range', lookupEntry_range'_map]
  by_cases h : id < ips.length
  · rw [if_pos (by omega), if_pos h]
  · rw [if_neg (by omega), if_neg h]

theorem start_of_get_none (g : GlobalConfig) (id : Nat)
    (h : g.get id = none) :
    ExecutorShard.start g id = ⟨.panicUnknownId, []⟩ := by
  unfold ExecutorShard.start
  rw [h]

theorem start_of_get_some_sw (g : GlobalConfig) (id : Nat) (c : ShardConfig)
    (h : g.get id = some c) (hkind : c.kind = "SW") :
    ExecutorShard.start g id =
      ⟨.ok ⟨⟨1⟩, Task.agent .sw g id,
          Task.metricsServer ⟨Ipv4Addr.UNSPECIFIED, c.metrics_address.port⟩⟩,
        [Task.metricsServer ⟨Ipv4Addr.UNSPECIFIED, c.metrics_address.port⟩,
          Task.agent .sw g id]⟩ := by
  unfold ExecutorShard.start
  rw [h]
  simp [hkind, Metrics.new, Metrics.inc_up, SocketAddr.set_ip]

theorem start_of_get_some_ew (g : GlobalConfig) (id : Nat) (c : ShardConfig)
    (h : g.get id = some c) (hkind : c.kind = "EW") :
    ExecutorShard.start g id =
      ⟨.ok ⟨⟨1⟩, Task.agent .ew g id,
          Task.metricsServer ⟨Ipv4Addr.UNSPECIFIED, c.metrics_address.port⟩⟩,
        [Task.metricsServer ⟨Ipv4Addr.UNSPECIFIED, c.metrics_address.port⟩,
          Task.agent .ew g id]⟩ := by
  unfold ExecutorShard.start
  rw [h]
  have hsw : ¬ c.kind = "SW" := by
    rw [hkind]
    decide
  simp [hsw, hkind, Metrics.new, Metrics.inc_up, SocketAddr.set_ip]

theorem start_of_get_some_other (g : GlobalConfig) (id : Nat)
    (c : ShardConfig) (h : g.get id = some c) (hsw : c.kind ≠ "SW")
    (hew : c.kind ≠ "EW") :
    ExecutorShard.start g id =
      ⟨.panicUnknownKind c.kind,
        [Task.metricsServer ⟨Ipv4Addr.UNSPECIFIED, c.metrics_address.port⟩]⟩ := by
  unfold ExecutorShard.start
  rw [h]
  simp [hsw, hew, SocketAddr.set_ip]

theorem decAccount_encAccount (a : Account) (r : List Nat) :
    decAccount (encAccount a ++ r) = some (a, r) := rfl

theorem decObject_encObject (o : GenesisObject) (r : List Nat) :
    decObject (encObject o ++ r) = some (o, r) := by
  show (if o.contents.length ≤ (o.contents ++ r).length then
      some (⟨o.object_id, o.version, (o.contents ++ r).take o.contents.length⟩,
        (o.contents ++ r).drop o.contents.length)
    else none) = some (o, r)
  rw [if_pos (by simp), List.take_left, List.drop_left]

theorem decTransaction_encTransaction (t : Transaction) (r : List Nat) :
    decTransaction (encTransaction t ++ r) = some (t, r) := by
  show (if t.payload.length ≤ (t.payload ++ r).length then
      some (⟨t.digest, (t.payload ++ r).take t.payload.length⟩,
        (t.payload ++ r).drop t.payload.length)
    else none) = some (t, r)
  rw [if_pos (by simp), List.take_left, List.drop_left]

theorem decMany_encBody {α : Type} (enc : α → List Nat)
    (dec : List Nat → Option (α × List Nat))
    (hyp : ∀ (x : α) (r : List Nat), dec (enc x ++ r) = some (x, r)) :
    ∀ (xs : List α) (r : List Nat),
      decMany dec xs.length (encBody enc xs ++ r) = some (xs, r) := by
  intro xs
  induction xs with
  | nil =>
    intro r
    simp [encBody, decMany]
  | cons x xs ih =>
    intro r
    show decMany dec (xs.length + 1) ((enc x ++ encBody enc xs) ++ r) =
      some (x :: xs, r)
    rw [List.append_assoc]
    show (match dec (enc x ++ (encBody enc xs ++ r)) with
      | none => none
      | some (y, rest1) =>
        match decMany dec xs.length rest1 with
        | none => none
        | some (ys, rest2) => some (y :: ys, rest2)) = some (x :: xs, r)
    rw [hyp]
    show (match decMany dec xs.length (encBody enc xs ++ r) with
      | none => none
      | some (ys, rest2) => some (x :: ys, rest2)) = some (x :: xs, r)
    rw [ih]

theorem decodeFile_encodeFile {α : Type} (enc : α → List Nat)
    (dec : List Nat → Option (α × List Nat))
    (hyp : ∀ (x : α) (r : List Nat), dec (enc x ++ r) = some (x, r))
    (xs : List α) :
    decodeFile dec (encodeFile enc xs) = some xs := by
  have h := decMany_encBody enc dec hyp xs []
  rw [List.append_nil] at h
  show (match decMany dec xs.length (encBody enc xs) with
    | some (ys, []) => some ys
    | _ => none) = some xs
  rw [h]

theorem read_write_same (fs : FileSystem) (d : String) (n : ArtifactName)
    (v : List Nat) : (fs.write d n v).read d n = some v := by
  simp [FileSystem.write, FileSystem.read, lookupFile]

theorem read_write_ne (fs : FileSystem) (d : String) (n : ArtifactName)
    (v : List Nat) (d' : String) (n' : ArtifactName)
    (h : (d', n') ≠ (d, n)) :
    (fs.write d n v).read d' n' = fs.read d' n' := by
  simp only [FileSystem.write, FileSystem.read, lookupFile]
  rw [if_neg (fun hh => h hh.symm)]

theorem import_export_roundtrip (A : List Account) (G : List GenesisObject)
    (T : List Transaction) (d : String) (fs : FileSystem) :
    import_from_files d (export_to_files A G T d fs) = some (A, G, T) := by
  have ha : (export_to_files A G T d fs).read d .accountsFile =
      some (encodeFile encAccount A) := by
    unfold export_to_files
    rw [read_write_ne _ _ _ _ _ _ (by simp),
      read_write_ne _ _ _ _ _ _ (by simp), read_write_same]
  have ho : (export_to_files A G T d fs).read d .objectsFile =
      some (encodeFile encObject G) := by
    unfold export_to_files
    rw [read_write_ne _ _ _ _ _ _ (by simp), read_write_same]
  have ht : (export_to_files A G T d fs).read d .txsFile =
      some (encodeFile encTransaction T) := by
    unfold export_to_files
    rw [read_write_same]
  unfold import_from_files
  simp only [ha, ho, ht,
    decodeFile_encodeFile encAccount decAccount decAccount_encAccount,
    decodeFile_encodeFile encObject decObject decObject_encObject,
    decodeFile_encodeFile encTransaction decTransaction
      decTransaction_encTransaction]

theorem applyMutations_shards (fs : List (GlobalConfig → GlobalConfig))
    (s : OrchestratorState) : (applyMutations fs s).shards = s.shards := by
  induction fs generalizing s with
  | nil => rfl
  | cons f fs ih =>
    show (applyMutations fs (mutateRegistry f s)).shards = s.shards
    rw [ih]
    rfl

theorem mem_of_lookupEntry_some (entries : List (Nat × ShardConfig))
    (id : Nat) (c : ShardConfig) (h : lookupEntry entries id = some c) :
    ∃ k, (k, c) ∈ entries := by
  induction entries with
  | nil => simp [lookupEntry] at h
  | cons p rest ih =>
    obtain ⟨a, c'⟩ := p
    by_cases hai : a = id
    · simp only [lookupEntry, if_pos hai, Option.some.injEq] at h
      exact ⟨a, List.mem_cons.mpr (Or.inl (by rw [h]))⟩
    · simp only [lookupEntry, if_neg hai] at h
      obtain ⟨k, hk⟩ := ih h
      exact ⟨k, List.mem_cons.mpr (Or.inr hk)⟩

/-- C4: starting a shard whose id is absent from the registry fails
immediately with the fatal unknown-shard-id panic, with an empty spawn
trace: neither an agent task nor a metrics task is created. -/
theorem claim_C4_unknown_id_no_tasks (g : GlobalConfig) (id : Nat)
    (h : g.get id = none) :
    ExecutorShard.start g id =
      { outcome := .panicUnknownId, spawned := [] } :=
  start_of_get_none g id h

/-- C4 witness: id 7 is absent from the two-entry testbed registry and
starting it panics with nothing spawned. -/
theorem claim_C4_witness :
    (testbedBaseConfig 1).get 7 = none ∧
      ExecutorShard.start (testbedBaseConfig 1) 7 =
        { outcome := .panicUnknownId, spawned := [] } :=
  ⟨by decide,
    claim_C4_unknown_id_no_tasks (testbedBaseConfig 1) 7 (by decide)⟩

/-- C5: for a registry whose every role tag is one of the two known roles
and an id present in it, start returns a started shard (it does not abort)
whose "up" counter reads exactly 1. -/
theorem claim_C5_valid_start_up_one (g : GlobalConfig) (id : Nat)
    (c : ShardConfig)
    (hvalid : ∀ p ∈ g.entries, p.2.kind = "SW" ∨ p.2.kind = "EW")
    (hget : g.get id = some c) :
    ∃ shard, (ExecutorShard.start g id).outcome = .ok shard ∧
      shard.metrics.up = 1 := by
  have hc : c.kind = "SW" ∨ c.kind = "EW" := by
    obtain ⟨k, hk⟩ := mem_of_lookupEntry_some g.entries id c hget
    exact hvalid (k, c) hk
  rcases hc with hsw | hew
  · exact ⟨_, by rw [start_of_get_some_sw g id c hget hsw], rfl⟩
  · exact ⟨_, by rw [start_of_get_some_ew g id c hget hew], rfl⟩

/-- C5 witness: starting id 0 of the two-entry testbed registry succeeds
with the "up" counter at 1. -/
theorem claim_C5_witness :
    (∀ p ∈ (testbedBaseConfig 1).entries,
        p.2.kind = "SW" ∨ p.2.kind = "EW") ∧
    (testbedBaseConfig 1).get 0 =
        some ⟨"SW", ⟨Ipv4Addr.LOCALHOST, 18000⟩, []⟩ ∧
    ∃ shard, (ExecutorShard.start (testbedBaseConfig 1) 0).outcome =
        .ok shard ∧ shard.metrics.up = 1 :=
  ⟨by decide, by decide,
    claim_C5_valid_start_up_one (testbedBaseConfig 1) 0
      ⟨"SW", ⟨Ipv4Addr.LOCALHOST, 18000⟩, []⟩ (by decide) (by decide)⟩

/-- C6: an entry whose role tag is neither `"SW"` nor `"EW"` makes start
terminate with the fatal panic naming the unexpected role, not with a
recoverable started-shard value. -/
theorem claim_C6_unknown_kind_panics (g : GlobalConfig) (id : Nat)
    (c : ShardConfig) (hget : g.get id = some c) (hsw : c.kind ≠ "SW")
    (hew : c.kind ≠ "EW") :
    (ExecutorShard.start g id).outcome = .panicUnknownKind c.kind := by
  rw [start_of_get_some_other g id c hget hsw hew]

/-- C6 witness: a registry whose only entry carries the role tag `"XX"`
panics with that tag on start. -/
theorem claim_C6_witness :
    (GlobalConfig.mk [(0, ⟨"XX", ⟨Ipv4Addr.LOCALHOST, 9000⟩, []⟩)]).get 0 =
        some ⟨"XX", ⟨Ipv4Addr.LOCALHOST, 9000⟩, []⟩ ∧
    ("XX" : String) ≠ "SW" ∧ ("XX" : String) ≠ "EW" ∧
    (ExecutorShard.start
        (GlobalConfig.mk [(0, ⟨"XX", ⟨Ipv4Addr.LOCALHOST, 9000⟩, []⟩)])
        0).outcome = .panicUnknownKind "XX" :=
  ⟨by decide, by decide, by decide,
    claim_C6_unknown_kind_panics
      (GlobalConfig.mk [(0, ⟨"XX", ⟨Ipv4Addr.LOCALHOST, 9000⟩, []⟩)]) 0
      ⟨"XX", ⟨Ipv4Addr.LOCALHOST, 9000⟩, []⟩
      (by decide) (by decide) (by decide)⟩

/-- C8: for every configured shard, the first task start spawns is the
metrics endpoint bound at the wildcard IP with exactly the port of the
shard's configured metrics address. -/
theorem claim_C8_wildcard_binding (g : GlobalConfig) (id : Nat)
    (c : ShardConfig) (hget : g.get id = some c) :
    ∃ rest, (ExecutorShard.start g id).spawned =
      Task.metricsServer ⟨Ipv4Addr.UNSPECIFIED, c.metrics_address.port⟩ ::
        rest := by
  by_cases hsw : c.kind = "SW"
  · exact ⟨[Task.agent .sw g id],
      by rw [start_of_get_some_sw g id c hget hsw]⟩
  · by_cases hew : c.kind = "EW"
    · exact ⟨[Task.agent .ew g id],
        by rw [start_of_get_some_ew g id c hget hew]⟩
    · exact ⟨[], by rw [start_of_get_some_other g id c hget hsw hew]⟩

/-- C8 witness: id 0 of the two-entry testbed registry (configured port
18000) binds its metrics endpoint at the wildcard IP, port 18000. -/
theorem claim_C8_witness :
    (testbedBaseConfig 1).get 0 =
        some ⟨"SW", ⟨Ipv4Addr.LOCALHOST, 18000⟩, []⟩ ∧
    ∃ rest, (ExecutorShard.start (testbedBaseConfig 1) 0).spawned =
      Task.metricsServer ⟨Ipv4Addr.UNSPECIFIED, 18000⟩ :: rest :=
  ⟨by decide,
    claim_C8_wildcard_binding (testbedBaseConfig 1) 0
      ⟨"SW", ⟨Ipv4Addr.LOCALHOST, 18000⟩, []⟩ (by decide)⟩

theorem deploy_fst_eq (T N : Nat) :
    (deploy_testbed T N).1 =
      (List.range (N + 1)).foldl
        (fun cfg id => cfg.and_modify id (insertTxCountAttr T))
        (testbedBaseConfig N) := rfl

theorem get_testbedBaseConfig (N : Nat) (id : Nat) :
    (testbedBaseConfig N).get id =
      if id < N + 1 then
        some { kind := if id < 1 then "SW" else "EW"
               metrics_address :=
                 { ip := Ipv4Addr.LOCALHOST
                   port := benchmarkBasePort + id }
               attrs := [] }
      else none := by
  unfold testbedBaseConfig
  rw [get_new_for_benchmark]
  rw [List.length_replicate]
  by_cases h : id < N + 1
  · rw [if_pos h, if_pos h]
    simp [List.getD, h]
  · rw [if_neg h, if_neg h]

/-- C3: deploying with rate `T` and `N` execution workers yields a registry
keyed exactly by ids `0..N` (so `N + 1` entries), with id 0 in the
sequencing role, ids `1..N` in the execution role, the rate `T` in every
attribute bag, and every spawn receiving the fully injected registry as its
snapshot (the rate is written before any shard is spawned). -/
theorem claim_C3_deploy_registry (T N : Nat) :
    ((deploy_testbed T N).1.entries.map Prod.fst = List.range (N + 1)) ∧
    (∀ id c, (deploy_testbed T N).1.get id = some c →
      (id = 0 → c.kind = "SW") ∧ (id ≠ 0 → c.kind = "EW") ∧
      lookupAttr c.attrs "tx_count" = some (toString T)) ∧
    (∀ e ∈ (deploy_testbed T N).2,
      e.configSnapshot = (deploy_testbed T N).1) := by
  refine ⟨?_, ?_, ?_⟩
  · rw [deploy_fst_eq, keys_foldl_and_modify]
    unfold testbedBaseConfig GlobalConfig.new_for_benchmark
    rw [List.length_replicate, List.map_map]
    exact List.map_id'' (fun a => rfl) _
  · intro id c h
    rw [deploy_fst_eq, get_foldl_and_modify _ (List.nodup_range _)] at h
    by_cases hid : id < N + 1
    · rw [if_pos (List.mem_range.mpr hid), get_testbedBaseConfig,
        if_pos hid] at h
      simp only [Option.map_some', Option.some.injEq] at h
      subst h
      refine ⟨?_, ?_, ?_⟩
      · intro h0
        subst h0
        rfl
      · intro h0
        show (if id < 1 then "SW" else "EW") = "EW"
        rw [if_neg (by omega)]
      · exact lookupAttr_insertAttr_self [] "tx_count" (toString T)
    · rw [if_neg (fun hm => hid (List.mem_range.mp hm)),
        get_testbedBaseConfig, if_neg hid] at h
      exact absurd h (by simp)
  · intro e he
    have hsp : (deploy_testbed T N).2 =
        (0 :: List.range' 1 N).map
          (fun id => SpawnEvent.mk (deploy_testbed T N).1 id
            (ExecutorShard.start (deploy_testbed T N).1 id)) := rfl
    rw [hsp] at he
    obtain ⟨id, _, hdef⟩ := List.mem_map.mp he
    rw [← hdef]

/-- C3 witness: instantiation at rate 5 and two execution workers. -/
theorem claim_C3_witness :
    (((deploy_testbed 5 2).1.entries.map Prod.fst = List.range 3) ∧
    (∀ id c, (deploy_testbed 5 2).1.get id = some c →
      (id = 0 → c.kind = "SW") ∧ (id ≠ 0 → c.kind = "EW") ∧
      lookupAttr c.attrs "tx_count" = some (toString 5)) ∧
    (∀ e ∈ (deploy_testbed 5 2).2,
      e.configSnapshot = (deploy_testbed 5 2).1)) :=
  claim_C3_deploy_registry 5 2

/-- C10: the testbed deployment touches only the `tx_count` key: every
entry keeps the role tag and metrics address produced by the initial
registry construction, and every attribute other than `tx_count` reads
exactly as in the initial registry. -/
theorem claim_C10_only_tx_count (T N id : Nat) (c0 : ShardConfig)
    (h : (testbedBaseConfig N).get id = some c0) :
    ∃ c, (deploy_testbed T N).1.get id = some c ∧
      c.kind = c0.kind ∧ c.metrics_address = c0.metrics_address ∧
      ∀ k, k ≠ "tx_count" → lookupAttr c.attrs k = lookupAttr c0.attrs k := by
  have hid : id < N + 1 := by
    by_contra hn
    rw [get_testbedBaseConfig, if_neg hn] at h
    exact absurd h (by simp)
  refine ⟨insertTxCountAttr T c0, ?_, rfl, rfl, ?_⟩
  · rw [deploy_fst_eq, get_foldl_and_modify _ (List.nodup_range _),
      if_pos (List.mem_range.mpr hid), h]
    rfl
  · intro k hk
    exact lookupAttr_insertAttr_ne c0.attrs "tx_count" (toString T) k hk

/-- C10 witness: instantiation at rate 3, one execution worker, shard 0. -/
theorem claim_C10_witness :
    (testbedBaseConfig 1).get 0 =
        some ⟨"SW", ⟨Ipv4Addr.LOCALHOST, 18000⟩, []⟩ ∧
    ∃ c, (deploy_testbed 3 1).1.get 0 = some c ∧
      c.kind = "SW" ∧ c.metrics_address = ⟨Ipv4Addr.LOCALHOST, 18000⟩ ∧
      ∀ k, k ≠ "tx_count" → lookupAttr c.attrs k = lookupAttr [] k :=
  ⟨by decide,
    claim_C10_only_tx_count 3 1 0
      ⟨"SW", ⟨Ipv4Addr.LOCALHOST, 18000⟩, []⟩ (by decide)⟩

/-- C9: when the shard id is not a key of the loaded configuration, the run
path's attribute injection leaves the registry exactly unchanged (no entry
created or modified) and the subsequent start aborts with the
unknown-shard-id panic before any task is spawned. -/
theorem claim_C9_run_missing_id (cfg : GlobalConfig) (id : Nat)
    (tx : Nat) (dur : Nat) (wd : String) (h : cfg.get id = none) :
    injectRunAttrs cfg id tx dur wd = cfg ∧
      (runOperation cfg id tx dur wd).2 =
        { outcome := .panicUnknownId, spawned := [] } := by
  have hinj : injectRunAttrs cfg id tx dur wd = cfg :=
    and_modify_of_get_none cfg id _ h
  refine ⟨hinj, ?_⟩
  show ExecutorShard.start (injectRunAttrs cfg id tx dur wd) id = _
  rw [hinj]
  exact start_of_get_none cfg id h

/-- C9 witness: id 5 is absent from the one-entry testbed registry; the
injection is the identity and the start panics with nothing spawned. -/
theorem claim_C9_witness :
    (testbedBaseConfig 0).get 5 = none ∧
    (injectRunAttrs (testbedBaseConfig 0) 5 1000 300 "wd" =
        testbedBaseConfig 0 ∧
      (runOperation (testbedBaseConfig 0) 5 1000 300 "wd").2 =
        { outcome := .panicUnknownId, spawned := [] }) :=
  ⟨by decide,
    claim_C9_run_missing_id (testbedBaseConfig 0) 5 1000 300 "wd"
      (by decide)⟩

/-- C7: a spawn records a by-value snapshot of the registry as the shard's
view, and no sequence of registry mutations performed after that spawn
changes any already-started shard's recorded view. -/
theorem claim_C7_snapshot_isolation (s : OrchestratorState) (id : Nat)
    (muts : List (GlobalConfig → GlobalConfig)) :
    (spawnShard id s).shards =
        s.shards ++
          [⟨s.registry, id, ExecutorShard.start s.registry id⟩] ∧
      (applyMutations muts (spawnShard id s)).shards =
        (spawnShard id s).shards :=
  ⟨rfl, applyMutations_shards muts (spawnShard id s)⟩

/-- C1: for every generated dataset and every directory, importing after
exporting reproduces the accounts, genesis objects and transaction sequence
structurally identically, in the same order (hence also the same account
count). -/
theorem claim_C1_roundtrip (tx_count : Nat) (duration_secs : Nat)
    (d : String) (fs : FileSystem) :
    import_from_files d
        (export_to_files
          (generate_benchmark_data tx_count duration_secs).1.get_accounts
          (generate_benchmark_data tx_count duration_secs).1.get_genesis_objects
          (generate_benchmark_data tx_count duration_secs).2 d fs) =
      some ((generate_benchmark_data tx_count duration_secs).1.get_accounts,
        (generate_benchmark_data tx_count duration_secs).1.get_genesis_objects,
        (generate_benchmark_data tx_count duration_secs).2) :=
  import_export_roundtrip _ _ _ d fs

/-- C2 counterexample: at rate `2 ^ 63` and a 2-second duration the `u64`
product `rate * duration.as_secs()` wraps to 0, so the materialized
transaction sequence length is 0, not the exact product `2 ^ 63 * 2`. -/
theorem claim_C2_counterexample :
    (generate_benchmark_data (2 ^ 63) 2).2.length ≠ 2 ^ 63 * 2 := by
  decide

/-- C2 amended: for `u64` rate and duration values, generate targets a
total transaction volume equal to the `u64` product
`rate * duration.seconds()` (i.e. the exact product reduced modulo
`2 ^ 64`), and the materialized transaction sequence has length exactly
equal to that target; in particular the exact product whenever it fits in a
`u64`. -/
theorem claim_C2_volume (tx_count : Nat) (duration_secs : Nat)
    (_h1 : tx_count < U64_MOD) (_h2 : duration_secs < U64_MOD) :
    (generate_benchmark_data tx_count duration_secs).2.length =
      tx_count * duration_secs % U64_MOD := by
  unfold generate_benchmark_data
  simp [BenchmarkContext.generate_transactions, Workload.create_tx_generator,
    Workload.new]

/-- C2 witness: rate 300 for 10 seconds materializes exactly
`300 * 10 = 3000` transactions. -/
theorem claim_C2_witness :
    300 < U64_MOD ∧ 10 < U64_MOD ∧
      (generate_benchmark_data 300 10).2.length = 300 * 10 % U64_MOD :=
  ⟨by decide, by decide, claim_C2_volume 300 10 (by decide) (by decide)⟩

end BenchmarkExecutor
